import Mathlib

/-!
Shallow embedding of the stock-sentiment dashboard frontend.

Two source variants exist:
* `src/frontend/src/App.tsx` — the richer variant, with a nullable `close`,
  a `predicted_close` series, a `mean_price` field and a prediction-boundary
  `ReferenceLine`;
* `src/unnamed/part_000` — the simpler variant, with a non-null `close`,
  no predictions, and a moving-average `Line` that sets bare `connectNulls`.

JavaScript `number`s are modelled as `JSNumber` (NaN or an idealized rational);
`undefined` numeric fields behave as NaN under `isNaN`, so an absent
`price_change` is modelled as `JSNumber.nan`. JavaScript string `trim` and
`toUpperCase` are modelled by Lean's `String.trim` and `String.toUpper`
(ASCII-faithful, which covers every ticker input exercised here).
-/

namespace StockSentiment

/-- A JavaScript `number`: NaN, or an idealized rational value. -/
inductive JSNumber where
  | nan : JSNumber
  | num (val : ℚ) : JSNumber
  deriving DecidableEq, Repr

/-- JavaScript global `isNaN` restricted to numbers (App.tsx line 60). -/
def isNaN : JSNumber → Bool
  | .nan => true
  | .num _ => false

/-- `const isPositive = (value: number) => value >= 0` (App.tsx line 65).
In JavaScript `NaN >= 0` is `false`. -/
def isPositive : JSNumber → Bool
  | .nan => false
  | .num v => decide (0 ≤ v)

/-- The inline strict comparison `value > 0` used by the sentiment badge label
(App.tsx line 119). In JavaScript `NaN > 0` is `false`. -/
def jsGtZero : JSNumber → Bool
  | .nan => false
  | .num v => decide (0 < v)

/-- Decimal digit character for `n % 10`. -/
def digitChar (n : Nat) : Char := Char.ofNat (48 + n % 10)

/-- The low `f` decimal digits of `n`, most significant first, zero-padded
to exactly `f` characters. -/
def fracDigits : Nat → Nat → List Char
  | _, 0 => []
  | n, f + 1 => fracDigits (n / 10) f ++ [digitChar n]

/-- The scaled magnitude `round(|q| * 10 ^ f)` with ties away from zero, the
rounding the ECMAScript `toFixed` algorithm applies to the magnitude. Written
with integer arithmetic on the reduced fraction; `toFixedScaled_eq_floor`
below proves it equal to `⌊|q| * 10 ^ f + 1/2⌋`. -/
def toFixedScaled (q : ℚ) (f : Nat) : Nat :=
  (2 * q.num.natAbs * 10 ^ f + q.den) / (2 * q.den)

/-- `Number.prototype.toFixed(f)` on a non-NaN value in the ordinary range:
the sign, the integer part, and exactly `f` fraction digits. -/
def ratToFixed (q : ℚ) (f : Nat) : String :=
  let n : Nat := toFixedScaled q f
  let sign := if q < 0 then "-" else ""
  sign ++ toString (n / 10 ^ f) ++
    (if f = 0 then "" else "." ++ String.mk (fracDigits (n % 10 ^ f) f))

/-- `value.toFixed(f)` on a JavaScript number (`NaN.toFixed(f)` is `"NaN"`). -/
def toFixed (v : JSNumber) (f : Nat) : String :=
  match v with
  | .nan => "NaN"
  | .num q => ratToFixed q f

/-- `formatPercent` (App.tsx lines 59-63): `"N/A"` for NaN, otherwise
`(value * 100).toFixed(2)` with a trailing percent sign. -/
def formatPercent : JSNumber → String
  | .nan => "N/A"
  | .num value => ratToFixed (value * 100) 2 ++ "%"

/-- One row of the richer variant's `historical` array
(`interface HistoricalData`, App.tsx lines 15-20). `none` models `null`. -/
structure HistoricalData where
  date : String
  close : Option JSNumber
  ma5 : Option JSNumber
  predicted_close : Option JSNumber
  deriving DecidableEq, Repr

/-- The richer variant's response entity (`interface StockData`,
App.tsx lines 22-30). -/
structure StockData where
  symbol : String
  average_sentiment : JSNumber
  price_change : JSNumber
  reddit_sentiment : JSNumber
  yfinance_sentiment : JSNumber
  historical : List HistoricalData
  mean_price : JSNumber
  deriving DecidableEq, Repr

/-- One row of the simpler variant's `historical` array
(`interface HistoricalData`, part_000 lines 14-18): `close` is not nullable. -/
structure HistoricalDataS where
  date : String
  close : JSNumber
  ma5 : Option JSNumber
  deriving DecidableEq, Repr

/-- The simpler variant's response entity (`interface StockData`,
part_000 lines 20-27): no `mean_price`, no predictions. -/
structure StockDataS where
  symbol : String
  average_sentiment : JSNumber
  price_change : JSNumber
  reddit_sentiment : JSNumber
  yfinance_sentiment : JSNumber
  historical : List HistoricalDataS
  deriving DecidableEq, Repr

/-- The component state: the five `useState` hooks of `App`
(App.tsx lines 33-37, identically part_000 lines 30-34), parametrized by the
variant's response-entity type. -/
structure AppState (Data : Type) where
  stockData : Option Data
  symbol : String
  inputValue : String
  loading : Bool
  error : Option String
  deriving DecidableEq, Repr

/-- The initial state of the five hooks: no data, symbol and input `"AAPL"`,
not loading, no error. -/
def initialState (Data : Type) : AppState Data :=
  { stockData := none, symbol := "AAPL", inputValue := "AAPL",
    loading := false, error := none }

/-- How the awaited `axios.get` inside `fetchStockData` resolves: success with
a parsed body, or failure carrying `err.response?.data?.detail` — `none` when
any link of that optional chain is absent (network error, missing body or
missing field), `some s` when the field is present with string value `s`. -/
inductive FetchOutcome (Data : Type) where
  | success (data : Data)
  | failure (detail : Option String)
  deriving DecidableEq, Repr

/-- JavaScript `a || b` on a string left operand: the empty string is falsy. -/
def jsStringOr : Option String → String → String
  | some s, fb => if s = "" then fb else s
  | none, fb => fb

/-- The state after `fetchStockData` runs `setLoading(true); setError(null)`
and suspends on the `await` (App.tsx lines 40-41). -/
def fetchStart {Data : Type} (s : AppState Data) : AppState Data :=
  { s with loading := true, error := none }

/-- The state transition applied when the awaited request settles
(App.tsx lines 42-52): on success store the body and the requested ticker;
on failure set `err.response?.data?.detail || "Failed to fetch stock data"`;
in both cases the `finally` block runs `setLoading(false)`. -/
def fetchSettle {Data : Type} (ticker : String) (outcome : FetchOutcome Data)
    (s : AppState Data) : AppState Data :=
  match outcome with
  | .success data => { s with stockData := some data, symbol := ticker, loading := false }
  | .failure detail =>
      { s with error := some (jsStringOr detail "Failed to fetch stock data"),
               loading := false }

/-- The complete effect of one `fetchStockData(ticker)` call whose request
settles with `outcome` (App.tsx lines 39-53, identically part_000
lines 36-50). -/
def fetchStockData {Data : Type} (ticker : String) (outcome : FetchOutcome Data)
    (s : AppState Data) : AppState Data :=
  fetchSettle ticker outcome (fetchStart s)

/-- The URL of the single GET request issued per call:
`http://localhost:8000/compare/TICKER` (App.tsx line 43). -/
def requestUrl (ticker : String) : String :=
  "http://localhost:8000/compare/" ++ ticker

/-- JavaScript `String.prototype.toUpperCase` (ASCII-faithful), written by
structural recursion over the characters. -/
def jsToUpper (s : String) : String :=
  String.mk (s.data.map Char.toUpper)

/-- JavaScript `String.prototype.trim`: strip leading and trailing
whitespace, written by structural recursion over the characters. -/
def jsTrim (s : String) : String :=
  String.mk (((s.data.dropWhile Char.isWhitespace).reverse.dropWhile
    Char.isWhitespace).reverse)

/-- The input's `onChange` handler: `setInputValue(e.target.value.toUpperCase())`
(App.tsx line 330, identically part_000 line 271). -/
def onChange {Data : Type} (raw : String) (s : AppState Data) : AppState Data :=
  { s with inputValue := jsToUpper raw }

/-- The requests fired by the input's `onKeyDown` handler
(App.tsx lines 331-335): `fetchStockData(inputValue.trim())` exactly when the
key is Enter and `inputValue.trim()` is truthy (non-empty). -/
def onKeyDownRequests {Data : Type} (key : String) (s : AppState Data) : List String :=
  if key = "Enter" ∧ jsTrim s.inputValue ≠ "" then
    [requestUrl (jsTrim s.inputValue)]
  else []

/-- The requests fired by the button's `onClick` handler
(App.tsx lines 341-343): `inputValue.trim() && fetchStockData(inputValue.trim())`. -/
def onClickRequests {Data : Type} (s : AppState Data) : List String :=
  if jsTrim s.inputValue ≠ "" then [requestUrl (jsTrim s.inputValue)] else []

/-- The search input's `disabled={loading}` attribute (App.tsx line 337). -/
def inputDisabled {Data : Type} (s : AppState Data) : Bool := s.loading

/-- The search button's `disabled={loading}` attribute (App.tsx line 344). -/
def buttonDisabled {Data : Type} (s : AppState Data) : Bool := s.loading

/-- JavaScript truthiness of a nullable string: `null` and `""` are falsy. -/
def strTruthy : Option String → Bool
  | none => false
  | some s => decide (s ≠ "")

/-- What the chart region displays. -/
inductive ChartRegion (Row : Type) where
  | loadingIndicator : ChartRegion Row
  | errorMessage (msg : String) : ChartRegion Row
  | chart (data : List Row) : ChartRegion Row
  | noData : ChartRegion Row
  deriving DecidableEq, Repr

/-- The chart-section conditional (App.tsx lines 198-318, identically
structured in part_000 lines 183-259):
`loading ? spinner : error ? error message : stockData && stockData.historical
&& stockData.historical.length > 0 ? chart : "No chart data available"`.
Parametrized by the variant's `historical` accessor. -/
def chartRegion {Data Row : Type} (historical : Data → List Row)
    (loading : Bool) (error : Option String) (stockData : Option Data) :
    ChartRegion Row :=
  if loading then .loadingIndicator
  else if strTruthy error then .errorMessage (error.getD "")
  else
    match stockData with
    | some d => if 0 < (historical d).length then .chart (historical d) else .noData
    | none => .noData

/-- JavaScript `Array.prototype.findIndex`: the index of the first element
satisfying the predicate, `-1` when none does. -/
def findIndex {α : Type} (p : α → Bool) : List α → Int
  | [] => -1
  | a :: rest =>
    if p a then 0
    else
      let r := findIndex p rest
      if r < 0 then -1 else r + 1

/-- `getPredictionStartIndex` (App.tsx lines 98-101): `-1` when no data,
otherwise `historical.findIndex((d) => d.close === null)`. -/
def getPredictionStartIndex (stockData : Option StockData) : Int :=
  match stockData with
  | none => -1
  | some d => findIndex (fun r => r.close.isNone) d.historical

/-- The x-anchor of the prediction-boundary `ReferenceLine` (App.tsx
lines 235-247): rendered only when `getPredictionStartIndex() > 0`, anchored
at `stockData.historical[getPredictionStartIndex() - 1].date`; `none` when the
guard fails. -/
def referenceLineX (d : StockData) : Option String :=
  let i := getPredictionStartIndex (some d)
  if 0 < i then (d.historical.get? (i - 1).toNat).map HistoricalData.date
  else none

/-- The Average Sentiment badge text (App.tsx lines 116-122):
`loading ? "Loading..." : stockData ? (average_sentiment > 0 ? "Positive" :
"Negative") : "---"`. -/
def averageSentimentLabel (loading : Bool) (stockData : Option StockData) : String :=
  if loading then "Loading..."
  else
    match stockData with
    | some d => if jsGtZero d.average_sentiment then "Positive" else "Negative"
    | none => "---"

/-- Whether the Average Sentiment badge carries the positive/green style
(App.tsx lines 110-114): `stockData && isPositive(stockData.average_sentiment)`. -/
def averageSentimentBadgeGreen (stockData : Option StockData) : Bool :=
  match stockData with
  | some d => isPositive d.average_sentiment
  | none => false

/-- The Average Sentiment card body (App.tsx lines 128-132):
`loading ? "..." : stockData ? average_sentiment.toFixed(3) : "---"`. -/
def averageSentimentValue (loading : Bool) (stockData : Option StockData) : String :=
  if loading then "..."
  else
    match stockData with
    | some d => toFixed d.average_sentiment 3
    | none => "---"

/-- The Price Change badge text (App.tsx lines 149-155): percentage plus an
up or down glyph when the value is a number, `"---"` otherwise. -/
def priceChangeBadgeText (loading : Bool) (stockData : Option StockData) : String :=
  if loading then "Loading..."
  else
    match stockData with
    | some d =>
      if !(isNaN d.price_change) then
        formatPercent d.price_change ++ " " ++
          (if isPositive d.price_change then "↑" else "↓")
      else "---"
    | none => "---"

/-- Whether the Price Change badge carries the positive/green style (App.tsx
lines 141-147): `stockData && !isNaN(price_change) && isPositive(price_change)`. -/
def priceChangeBadgeGreen (stockData : Option StockData) : Bool :=
  match stockData with
  | some d => !(isNaN d.price_change) && isPositive d.price_change
  | none => false

/-- The Price Change card body (App.tsx lines 161-165):
`loading ? "..." : stockData ? formatPercent(price_change) : "---"`. -/
def priceChangeValue (loading : Bool) (stockData : Option StockData) : String :=
  if loading then "..."
  else
    match stockData with
    | some d => formatPercent d.price_change
    | none => "---"

/-- The Average Price card body (App.tsx lines 186-190):
`loading ? "..." : stockData ? mean_price.toFixed(3) : "---"`. -/
def meanPriceValue (loading : Bool) (stockData : Option StockData) : String :=
  if loading then "..."
  else
    match stockData with
    | some d => toFixed d.mean_price 3
    | none => "---"

/-- The YFinance Sentiment panel value (App.tsx line 371), shown when
stockData is present: `yfinance_sentiment.toFixed(3)`. -/
def yfinanceSentimentValue (d : StockData) : String :=
  toFixed d.yfinance_sentiment 3

/-- The Reddit Sentiment panel value (App.tsx line 377), shown when stockData
is present: `reddit_sentiment.toFixed(3)`. -/
def redditSentimentValue (d : StockData) : String :=
  toFixed d.reddit_sentiment 3

/-- The configuration of one recharts `Line` that matters for null handling. -/
structure LineConfig where
  dataKey : String
  connectNulls : Bool
  deriving DecidableEq, Repr

/-- The three `Line` series of the richer variant (App.tsx lines 257-313):
close, ma5 and predicted_close, each with explicit `connectNulls={false}`. -/
def chartLines : List LineConfig :=
  [{ dataKey := "close", connectNulls := false },
   { dataKey := "ma5", connectNulls := false },
   { dataKey := "predicted_close", connectNulls := false }]

/-- The two `Line` series of the simpler variant (part_000 lines 225-254):
the close line has no `connectNulls` attribute (recharts defaults to false),
the ma5 line sets bare `connectNulls` (true). -/
def chartLinesS : List LineConfig :=
  [{ dataKey := "close", connectNulls := false },
   { dataKey := "ma5", connectNulls := true }]

/-- The points a recharts `Line` plots for a nullable series: one point per
non-null row, tagged with its row index. `connectNulls` never creates points;
it only affects which points get joined by segments. -/
def drawnPoints (series : List (Option ℚ)) : List (Nat × ℚ) :=
  series.enum.filterMap (fun p => p.2.map (fun v => (p.1, v)))

/-- Consecutive pairs of a list. -/
def consecPairs {α : Type} : List α → List (α × α)
  | a :: b :: rest => (a, b) :: consecPairs (b :: rest)
  | _ => []

/-- The segments a recharts `Line` draws between its plotted points: with
`connectNulls` every consecutive pair of plotted points is joined; without it
only pairs on adjacent rows are joined, so a null gap breaks the line. -/
def segmentsOf (connectNulls : Bool) (series : List (Option ℚ)) :
    List ((Nat × ℚ) × (Nat × ℚ)) :=
  (consecPairs (drawnPoints series)).filter
    (fun pq => connectNulls || decide (pq.2.1 = pq.1.1 + 1))

/-- Whether `i` is the index of the first record whose `close` is null:
the record at `i` exists with a null `close` and every earlier record has a
non-null `close`. -/
def isFirstNullClose (l : List HistoricalData) (i : Nat) : Bool :=
  (match l.get? i with
   | some r => r.close.isNone
   | none => false) &&
  (l.take i).all (fun r => r.close.isSome)

/-! Concrete response payloads used by the witnesses. -/

/-- An 8-row historical series: rows 1-5 realized (non-null `close`), rows 6-8
forecast (`close` null, `predicted_close` populated). -/
def exHistorical : List HistoricalData :=
  [{ date := "d1", close := some (.num 10), ma5 := none, predicted_close := none },
   { date := "d2", close := some (.num 11), ma5 := none, predicted_close := none },
   { date := "d3", close := some (.num 12), ma5 := none, predicted_close := none },
   { date := "d4", close := some (.num 13), ma5 := none, predicted_close := none },
   { date := "d5", close := some (.num 14), ma5 := some (.num 12), predicted_close := none },
   { date := "d6", close := none, ma5 := none, predicted_close := some (.num 15) },
   { date := "d7", close := none, ma5 := none, predicted_close := some (.num 16) },
   { date := "d8", close := none, ma5 := none, predicted_close := some (.num 17) }]

/-- A richer-variant payload with the 8-row series, zero average sentiment
and a +200% price change. -/
def exStock : StockData :=
  { symbol := "AAPL", average_sentiment := .num 0, price_change := .num 2,
    reddit_sentiment := .num 1, yfinance_sentiment := .num (-1),
    historical := exHistorical, mean_price := .num 14 }

/-- A richer-variant payload whose `price_change` is NaN. -/
def exStockNaN : StockData :=
  { symbol := "MSFT", average_sentiment := .num 1, price_change := .nan,
    reddit_sentiment := .num 0, yfinance_sentiment := .num 0,
    historical := [], mean_price := .num 5 }

/-- A richer-variant payload with no forecast rows: every `close` is non-null. -/
def exStockAll : StockData :=
  { symbol := "GOOG", average_sentiment := .num 1, price_change := .num 0,
    reddit_sentiment := .num 0, yfinance_sentiment := .num 0,
    historical :=
      [{ date := "d1", close := some (.num 10), ma5 := none, predicted_close := none },
       { date := "d2", close := some (.num 11), ma5 := none, predicted_close := none }],
    mean_price := .num 10 }

/-- A richer-variant payload whose very first record has a null `close`. -/
def exStockFirstNull : StockData :=
  { symbol := "AMZN", average_sentiment := .num 1, price_change := .num 0,
    reddit_sentiment := .num 0, yfinance_sentiment := .num 0,
    historical :=
      [{ date := "d1", close := none, ma5 := none, predicted_close := some (.num 9) },
       { date := "d2", close := none, ma5 := none, predicted_close := some (.num 9) }],
    mean_price := .num 10 }

/-- A simpler-variant payload. -/
def exStockS : StockDataS :=
  { symbol := "AAPL", average_sentiment := .num 1, price_change := .num 0,
    reddit_sentiment := .num 1, yfinance_sentiment := .num 1,
    historical := [{ date := "d1", close := .num 10, ma5 := none }] }

/-- A richer-variant state already holding a successful payload. -/
def richFailState : AppState StockData :=
  { initialState StockData with stockData := some exStock }

/-- A simpler-variant state already holding a successful payload. -/
def simpleFailState : AppState StockDataS :=
  { initialState StockDataS with stockData := some exStockS }

/-- An ma5 series whose first two rows are null, as in the simpler variant's
leading four-day window. -/
def exMa5Series : List (Option ℚ) := [none, none, some 3, some 4, some 5]

/-- A series with a two-row null gap between populated stretches. -/
def exGapSeries : List (Option ℚ) := [some 1, some 2, none, none, some 9]

/-! Supporting lemmas. -/

/-- `fracDigits` always produces exactly `f` characters. -/
theorem fracDigits_length (n f : Nat) : (fracDigits n f).length = f := by
  induction f generalizing n with
  | zero => rfl
  | succ f ih => simp [fracDigits, ih]

/-- `toFixedScaled` agrees with the specification-level rounding
`⌊|q| * 10 ^ f + 1/2⌋`. -/
theorem toFixedScaled_eq_floor (q : ℚ) (f : Nat) :
    (toFixedScaled q f : Int) = ⌊|q| * 10 ^ f + 1/2⌋ := by
  have hd0 : (q.den : ℚ) ≠ 0 := Nat.cast_ne_zero.mpr q.den_nz
  have habs : |q| = (q.num.natAbs : ℚ) / (q.den : ℚ) := by
    conv_lhs => rw [← Rat.num_div_den q]
    rw [abs_div, abs_of_nonneg (by positivity : (0 : ℚ) ≤ (q.den : ℚ)),
      Int.cast_natAbs, Int.cast_abs]
  have key : |q| * 10 ^ f + 1/2 =
      ((2 * q.num.natAbs * 10 ^ f + q.den : ℕ) : ℚ) /
        ((2 * q.den : ℕ) : ℚ) := by
    rw [habs]
    push_cast
    field_simp
    ring
  rw [key, Rat.floor_natCast_div_natCast]
  simp [toFixedScaled, Int.ofNat_div]

/-- The fraction part of `ratToFixed` always has exactly `f` digits. -/
theorem ratToFixed_decimals (q : ℚ) (f : Nat) (hf : f ≠ 0) :
    ∃ pre frac, ratToFixed q f = pre ++ "." ++ frac ∧ frac.length = f := by
  refine ⟨(if q < 0 then "-" else "") ++ toString (toFixedScaled q f / 10 ^ f),
          String.mk (fracDigits (toFixedScaled q f % 10 ^ f) f), ?_,
          fracDigits_length _ _⟩
  simp only [ratToFixed, if_neg hf]
  simp [String.append_assoc]

/-- `findIndex` returns `-1` when no element satisfies the predicate. -/
theorem findIndex_neg {α : Type} (p : α → Bool) (l : List α)
    (h : ∀ a ∈ l, p a = false) : findIndex p l = -1 := by
  induction l with
  | nil => rfl
  | cons a t ih =>
    simp only [findIndex, h a (List.mem_cons_self a t)]
    rw [ih (fun x hx => h x (List.mem_cons_of_mem a hx))]
    norm_num

/-- A found `findIndex` result is a valid index: it is below the length. -/
theorem findIndex_lt_length {α : Type} (p : α → Bool) (l : List α) :
    findIndex p l < (l.length : Int) := by
  induction l with
  | nil => simp [findIndex]
  | cons a t ih =>
    simp only [findIndex, List.length_cons]
    by_cases hpa : p a
    · simp [hpa]
    · simp only [hpa, if_false]
      by_cases hr : findIndex p t < 0
      · simp only [hr, if_true]
        push_cast
        omega
      · simp only [hr, if_false]
        push_cast
        omega

/-- `findIndex` finds the first satisfying index: if the record at `i`
satisfies the predicate and no earlier record does, the result is `i`. -/
theorem findIndex_first {α : Type} (p : α → Bool) :
    ∀ (l : List α) (i : Nat) (r : α), l.get? i = some r → p r = true →
      (l.take i).all (fun a => !p a) = true → findIndex p l = i := by
  intro l
  induction l with
  | nil => intro i r hget; simp at hget
  | cons a t ih =>
    intro i r hget hp htake
    cases i with
    | zero =>
      simp only [List.get?] at hget
      cases hget
      simp [findIndex, hp]
    | succ j =>
      simp only [List.get?] at hget
      have htake' : (a :: t).take (j + 1) = a :: t.take j := rfl
      rw [htake'] at htake
      simp only [List.all_cons, Bool.and_eq_true, Bool.not_eq_true'] at htake
      obtain ⟨hpa, htakej⟩ := htake
      have hrec : findIndex p t = j := ih j r hget hp (by simpa using htakej)
      simp only [findIndex, hpa, if_false, hrec]
      norm_num

/-- Errors stored by `fetchStockData` are never the empty string: the failure
branch stores `detail || "Failed to fetch stock data"`, whose result is always
non-empty, and the other paths leave `error` as `null`. -/
theorem fetch_error_nonempty {Data : Type} (ticker : String)
    (outcome : FetchOutcome Data) (s : AppState Data) :
    ∀ e, (fetchStockData ticker outcome s).error = some e → e ≠ "" := by
  intro e he
  cases outcome with
  | success data => simp [fetchStockData, fetchStart, fetchSettle] at he
  | failure detail =>
    simp only [fetchStockData, fetchStart, fetchSettle, Option.some.injEq] at he
    cases detail with
    | none => simp [jsStringOr] at he; simp [← he]
    | some d =>
      simp only [jsStringOr] at he
      by_cases hd : d = ""
      · rw [if_pos hd] at he; simp [← he]
      · rw [if_neg hd] at he; rw [← he]; exact hd

/-! Claim theorems. -/

/-- C1: after the `onChange` handler stores the uppercased input, committing a
search (Enter in the field or the search button) issues exactly one GET request
to `http://localhost:8000/compare/TICKER` with the trimmed ticker substituted
whenever the trimmed input is non-empty, and issues no request when the input
is empty or whitespace-only. -/
theorem claim_C1 {Data : Type} (raw : String) (s : AppState Data) :
    (onChange raw s).inputValue = jsToUpper raw ∧
    (jsTrim (jsToUpper raw) ≠ "" →
      onKeyDownRequests "Enter" (onChange raw s) =
        [requestUrl (jsTrim (jsToUpper raw))] ∧
      onClickRequests (onChange raw s) = [requestUrl (jsTrim (jsToUpper raw))]) ∧
    (jsTrim (jsToUpper raw) = "" →
      onKeyDownRequests "Enter" (onChange raw s) = [] ∧
      onClickRequests (onChange raw s) = []) := by
  refine ⟨rfl, ?_, ?_⟩
  · intro hne
    constructor
    · simp [onKeyDownRequests, onChange, hne]
    · simp [onClickRequests, onChange, hne]
  · intro heq
    constructor
    · simp [onKeyDownRequests, onChange, heq]
    · simp [onClickRequests, onChange, heq]

/-- Witness for C1 at concrete inputs: typing " aapl " and committing issues
the single request for "AAPL"; typing blanks only issues nothing. -/
theorem claim_C1_witness :
    onKeyDownRequests "Enter" (onChange " aapl " (initialState StockData)) =
      ["http://localhost:8000/compare/AAPL"] ∧
    onClickRequests (onChange "   " (initialState StockData)) = [] := by
  constructor
  · have h := ((claim_C1 " aapl " (initialState StockData)).2.1 (by decide)).1
    rw [h]; decide
  · exact ((claim_C1 "   " (initialState StockData)).2.2 (by decide)).2

/-- C2 as stated is violated when the error-detail field is present but empty:
JavaScript `||` treats the empty string as falsy, so the code stores the
generic message instead of the (present) detail value. -/
theorem claim_C2_counterexample :
    (fetchStockData "AAPL" (FetchOutcome.failure (some ""))
      (initialState StockData)).error = some "Failed to fetch stock data" ∧
    some "Failed to fetch stock data" ≠ (some "" : Option String) := by
  exact ⟨rfl, by decide⟩

/-- C2 (amended): on every settled fetch the loading flag is false (the
`finally` cleanup runs on success and failure alike); on failure the error is
the response body's detail field when that field is present AND non-empty, and
the generic string "Failed to fetch stock data" otherwise; on success the
error is cleared. -/
theorem claim_C2 {Data : Type} (ticker : String) (outcome : FetchOutcome Data)
    (s : AppState Data) :
    (fetchStockData ticker outcome s).loading = false ∧
    (∀ detail, outcome = FetchOutcome.failure detail →
      (fetchStockData ticker outcome s).error =
        some (match detail with
              | some d => if d = "" then "Failed to fetch stock data" else d
              | none => "Failed to fetch stock data")) ∧
    (∀ data, outcome = FetchOutcome.success data →
      (fetchStockData ticker outcome s).error = none) := by
  refine ⟨?_, ?_, ?_⟩
  · cases outcome <;> rfl
  · intro detail hout
    subst hout
    cases detail with
    | none => rfl
    | some d => simp [fetchStockData, fetchStart, fetchSettle, jsStringOr]
  · intro data hout
    subst hout
    rfl

/-- Witness for C2 at a concrete failure with detail "boom": loading returns
to false and the error is the detail itself. -/
theorem claim_C2_witness :
    (fetchStockData "AAPL" (FetchOutcome.failure (some "boom"))
      (initialState StockData)).loading = false ∧
    (fetchStockData "AAPL" (FetchOutcome.failure (some "boom"))
      (initialState StockData)).error = some "boom" := by
  have h := claim_C2 "AAPL" (FetchOutcome.failure (some "boom"))
    (initialState StockData)
  refine ⟨h.1, ?_⟩
  have h2 := h.2.1 (some "boom") rfl
  rw [h2]
  decide

/-- C6 as stated is violated: on a failed fetch neither variant clears the
previously stored response entity — both retain it un-mutated, so there is no
variant in which it is cleared. -/
theorem claim_C6_counterexample :
    (fetchStockData "TSLA" (FetchOutcome.failure none) richFailState).stockData
      = some exStock ∧
    (fetchStockData "TSLA" (FetchOutcome.failure none) simpleFailState).stockData
      = some exStockS ∧
    ¬((fetchStockData "TSLA" (FetchOutcome.failure none)
        richFailState).stockData = none ∨
      (fetchStockData "TSLA" (FetchOutcome.failure none)
        simpleFailState).stockData = none) := by
  refine ⟨rfl, rfl, ?_⟩
  intro h
  cases h with
  | inl h => exact Option.some_ne_none exStock h
  | inr h => exact Option.some_ne_none exStockS h

/-- C6 (amended): on a failed fetch the previously stored response entity is
retained un-mutated in BOTH variants (the two files share the same catch
block), with no partial-update path: apart from the error message and the
loading flag, the stored quote data, the current symbol and the input text are
left exactly as they were. -/
theorem claim_C6 {Data : Type} (ticker : String) (detail : Option String)
    (s : AppState Data) :
    (fetchStockData ticker (FetchOutcome.failure detail) s).stockData =
      s.stockData ∧
    (fetchStockData ticker (FetchOutcome.failure detail) s).symbol = s.symbol ∧
    (fetchStockData ticker (FetchOutcome.failure detail) s).inputValue =
      s.inputValue :=
  ⟨rfl, rfl, rfl⟩

/-- C7: the search input and button are disabled exactly while the loading
flag is true; the flag is raised when a fetch starts and lowered when it
settles, success or failure alike, so both controls are disabled while a fetch
is outstanding and re-enabled on completion. -/
theorem claim_C7 {Data : Type} (s : AppState Data) (ticker : String)
    (outcome : FetchOutcome Data) :
    inputDisabled s = s.loading ∧ buttonDisabled s = s.loading ∧
    inputDisabled (fetchStart s) = true ∧ buttonDisabled (fetchStart s) = true ∧
    inputDisabled (fetchStockData ticker outcome s) = false ∧
    buttonDisabled (fetchStockData ticker outcome s) = false := by
  refine ⟨rfl, rfl, rfl, rfl, ?_, ?_⟩ <;> cases outcome <;> rfl

/-- C3: the chart region is a pure function of (loading, error, stockData)
with loading first, then a set (non-empty, as `fetch_error_nonempty`
guarantees for every reachable state) error, then the chart when data is
present with a non-empty historical series, and the no-data placeholder in
every remaining case. Stated generically, covering both variants. -/
theorem claim_C3 {Data Row : Type} (historical : Data → List Row)
    (loading : Bool) (error : Option String) (stockData : Option Data) :
    (loading = true →
      chartRegion historical loading error stockData =
        ChartRegion.loadingIndicator) ∧
    (loading = false → ∀ e, error = some e → e ≠ "" →
      chartRegion historical loading error stockData =
        ChartRegion.errorMessage e) ∧
    (loading = false → error = none → ∀ d, stockData = some d →
      historical d ≠ [] →
      chartRegion historical loading error stockData =
        ChartRegion.chart (historical d)) ∧
    (loading = false → error = none →
      (stockData = none ∨ ∃ d, stockData = some d ∧ historical d = []) →
      chartRegion historical loading error stockData = ChartRegion.noData) := by
  refine ⟨?_, ?_, ?_, ?_⟩
  · intro h
    subst h
    rfl
  · intro hl e he hne
    subst hl
    subst he
    simp [chartRegion, strTruthy, hne]
  · intro hl he d hd hne
    subst hl
    subst he
    subst hd
    simp [chartRegion, strTruthy, List.length_pos.mpr hne]
  · intro hl he hcase
    subst hl
    subst he
    rcases hcase with hnone | ⟨d, hd, hempty⟩
    · subst hnone
      rfl
    · subst hd
      simp [chartRegion, strTruthy, hempty]

/-- Witness for C3 at concrete states: one per branch of the priority order. -/
theorem claim_C3_witness :
    chartRegion StockData.historical true none none =
      ChartRegion.loadingIndicator ∧
    chartRegion StockData.historical false (some "Failed to fetch stock data")
      (some exStock) = ChartRegion.errorMessage "Failed to fetch stock data" ∧
    chartRegion StockData.historical false none (some exStock) =
      ChartRegion.chart exHistorical ∧
    chartRegion StockData.historical false none none = ChartRegion.noData := by
  refine ⟨?_, ?_, ?_, ?_⟩
  · exact (claim_C3 StockData.historical true none none).1 rfl
  · exact (claim_C3 StockData.historical false (some "Failed to fetch stock data")
      (some exStock)).2.1 rfl _ rfl (by decide)
  · exact (claim_C3 StockData.historical false none (some exStock)).2.2.1 rfl rfl
      exStock rfl (by decide)
  · exact (claim_C3 StockData.historical false none none).2.2.2 rfl rfl (Or.inl rfl)

/-- C4: the forecast boundary is located as the index of the first record
whose close is null, wherever it occurs, and when that index is positive the
boundary marker anchors at the date of the preceding (last realized) record. -/
theorem claim_C4 (d : StockData) (i : Nat)
    (h : isFirstNullClose d.historical i = true) :
    getPredictionStartIndex (some d) = i ∧
    (0 < i → ∀ r, d.historical.get? (i - 1) = some r →
      referenceLineX d = some r.date) := by
  simp only [isFirstNullClose, Bool.and_eq_true] at h
  obtain ⟨h1, h2⟩ := h
  cases hg : d.historical.get? i with
  | none =>
    rw [hg] at h1
    simp at h1
  | some r =>
    rw [hg] at h1
    have hfind : findIndex (fun r => r.close.isNone) d.historical = i := by
      apply findIndex_first _ _ i r hg h1
      have hconv : ∀ a : HistoricalData, (!a.close.isNone) = a.close.isSome := by
        intro a
        cases a.close <;> rfl
      simp only [hconv]
      exact h2
    refine ⟨by simp [getPredictionStartIndex, hfind], ?_⟩
    intro hi r' hr'
    simp only [referenceLineX, getPredictionStartIndex, hfind]
    rw [if_pos (by exact_mod_cast hi)]
    have htn : ((i : Int) - 1).toNat = i - 1 := by omega
    rw [htn, hr']
    rfl

/-- Witness for C4: in the 8-row series with realized rows 1-5 and forecast
rows 6-8 the boundary index is 5 and the marker anchors at row 5's date. -/
theorem claim_C4_witness :
    getPredictionStartIndex (some exStock) = 5 ∧
    referenceLineX exStock = some "d5" := by
  have h := claim_C4 exStock 5 (by decide)
  refine ⟨h.1, ?_⟩
  exact h.2 (by norm_num)
    { date := "d5", close := some (.num 14), ma5 := some (.num 12),
      predicted_close := none } (by decide)

/-- C10: the boundary marker appears only when the first-null-close index is
strictly positive — never when no close is null, never when the very first
record's close is null — and whenever it appears the access to the preceding
record is in bounds. -/
theorem claim_C10 (d : StockData) :
    ((d.historical.all fun r => r.close.isSome) = true →
      getPredictionStartIndex (some d) = -1 ∧ referenceLineX d = none) ∧
    (∀ r₀, d.historical.get? 0 = some r₀ → r₀.close = none →
      getPredictionStartIndex (some d) = 0 ∧ referenceLineX d = none) ∧
    (0 < getPredictionStartIndex (some d) →
      ∃ r, d.historical.get?
          ((getPredictionStartIndex (some d)) - 1).toNat = some r ∧
        referenceLineX d = some r.date) := by
  refine ⟨?_, ?_, ?_⟩
  · intro hall
    have hfind : findIndex (fun r => r.close.isNone) d.historical = -1 := by
      apply findIndex_neg
      intro a ha
      have hs := List.all_eq_true.mp hall a ha
      cases hc : a.close with
      | none => rw [hc] at hs; simp at hs
      | some v => rfl
    refine ⟨by simp [getPredictionStartIndex, hfind], ?_⟩
    simp only [referenceLineX, getPredictionStartIndex, hfind]
    norm_num
  · intro r₀ h0 hclose
    have hfind : findIndex (fun r => r.close.isNone) d.historical = 0 := by
      apply findIndex_first _ _ 0 r₀ h0 (by simp [hclose]) (by simp)
    refine ⟨by simp [getPredictionStartIndex, hfind], ?_⟩
    simp only [referenceLineX, getPredictionStartIndex, hfind]
    norm_num
  · intro hpos
    have hlt : getPredictionStartIndex (some d) < (d.historical.length : Int) :=
      findIndex_lt_length _ _
    have hnat : ((getPredictionStartIndex (some d)) - 1).toNat <
        d.historical.length := by omega
    refine ⟨d.historical.get ⟨_, hnat⟩, List.get?_eq_get hnat, ?_⟩
    simp only [referenceLineX]
    rw [if_pos hpos, List.get?_eq_get hnat]
    rfl

/-- Witness for C10, one concrete payload per case: all closes realized, first
close null, and the boundary case with its in-bounds preceding record. -/
theorem claim_C10_witness :
    (getPredictionStartIndex (some exStockAll) = -1 ∧
      referenceLineX exStockAll = none) ∧
    (getPredictionStartIndex (some exStockFirstNull) = 0 ∧
      referenceLineX exStockFirstNull = none) ∧
    (∃ r, exStock.historical.get?
        ((getPredictionStartIndex (some exStock)) - 1).toNat = some r ∧
      referenceLineX exStock = some r.date) := by
  refine ⟨(claim_C10 exStockAll).1 (by decide),
          (claim_C10 exStockFirstNull).2.1 _ rfl rfl,
          (claim_C10 exStock).2.2 (by decide)⟩

/-- C5: sentiment and mean-price values render with `toFixed(3)` whose result
carries exactly 3 fraction digits; a percentage renders as the value times 100
fixed to 2 decimals with a trailing percent sign, or "N/A" when the value is
NaN (an absent `price_change` behaves as NaN), with the NaN badge styled
negative; and the glyph accompanying the percentage is the up glyph exactly
when the value is at least 0, zero counting as up. -/
theorem claim_C5 (d : StockData) (q : ℚ) :
    averageSentimentValue false (some d) = toFixed d.average_sentiment 3 ∧
    meanPriceValue false (some d) = toFixed d.mean_price 3 ∧
    yfinanceSentimentValue d = toFixed d.yfinance_sentiment 3 ∧
    redditSentimentValue d = toFixed d.reddit_sentiment 3 ∧
    (∃ pre frac, ratToFixed q 3 = pre ++ "." ++ frac ∧ frac.length = 3) ∧
    (∃ pre frac, ratToFixed (q * 100) 2 = pre ++ "." ++ frac ∧
      frac.length = 2) ∧
    formatPercent (JSNumber.num q) = ratToFixed (q * 100) 2 ++ "%" ∧
    formatPercent JSNumber.nan = "N/A" ∧
    (d.price_change = JSNumber.nan →
      priceChangeValue false (some d) = "N/A" ∧
      priceChangeBadgeGreen (some d) = false ∧
      priceChangeBadgeText false (some d) = "---") ∧
    (d.price_change = JSNumber.num q →
      priceChangeBadgeText false (some d) =
        ratToFixed (q * 100) 2 ++ "%" ++ " " ++
          (if 0 ≤ q then "↑" else "↓")) := by
  refine ⟨rfl, rfl, rfl, rfl, ratToFixed_decimals q 3 (by norm_num),
    ratToFixed_decimals (q * 100) 2 (by norm_num), rfl, rfl, ?_, ?_⟩
  · intro h
    refine ⟨?_, ?_, ?_⟩
    · simp [priceChangeValue, h, formatPercent]
    · simp [priceChangeBadgeGreen, h, isNaN]
    · simp [priceChangeBadgeText, h, isNaN]
  · intro h
    have hcard : priceChangeBadgeText false (some d) =
        formatPercent (JSNumber.num q) ++ " " ++
          (if isPositive (JSNumber.num q) then "↑" else "↓") := by
      simp [priceChangeBadgeText, h, isNaN]
    rw [hcard]
    by_cases hq : 0 ≤ q
    · rw [if_pos (by simp [isPositive, hq]), if_pos hq]
      rfl
    · rw [if_neg (by simp [isPositive, hq]), if_neg hq]
      rfl

/-- Witness for C5 at concrete payloads: a NaN price change renders "N/A"
with a non-green badge, and a +200% price change renders "200.00% ↑". -/
theorem claim_C5_witness :
    priceChangeValue false (some exStockNaN) = "N/A" ∧
    priceChangeBadgeGreen (some exStockNaN) = false ∧
    priceChangeBadgeText false (some exStock) = "200.00% ↑" := by
  obtain ⟨-, -, -, -, -, -, -, -, h9, -⟩ := claim_C5 exStockNaN 0
  obtain ⟨-, -, -, -, -, -, -, -, -, h10⟩ := claim_C5 exStock 2
  have hn := h9 rfl
  have hp := h10 rfl
  refine ⟨hn.1, hn.2.1, ?_⟩
  rw [hp]
  have h2 : (2 * 100 : ℚ) = 200 := by norm_num
  rw [h2, if_pos (by norm_num : (0 : ℚ) ≤ 2)]
  decide

/-- C8: every series of the richer variant is configured not to connect
across nulls; in the simpler variant exactly the moving-average series
connects across nulls; plotted points exist only at non-null rows, so an ma5
series with two leading nulls starts plotting at the third row; and without
`connectNulls` no segment bridges a null gap, while with it the gap is
bridged. -/
theorem claim_C8 :
    chartLines.all (fun l => !l.connectNulls) = true ∧
    chartLinesS.all (fun l => l.connectNulls == (l.dataKey == "ma5")) = true ∧
    drawnPoints exMa5Series = [(2, 3), (3, 4), (4, 5)] ∧
    (drawnPoints exMa5Series).all (fun p => decide (2 ≤ p.1)) = true ∧
    segmentsOf false exGapSeries = [((0, 1), (1, 2))] ∧
    segmentsOf true exGapSeries = [((0, 1), (1, 2)), ((1, 2), (4, 9))] := by
  decide

/-- C9: at average sentiment exactly 0 the badge is inconsistent — the label
reads "Negative" (strict `> 0` test) while the styling is the positive/green
one (`isPositive`, a `>= 0` test); for strictly positive values both agree on
positive, for strictly negative values both agree on negative. -/
theorem claim_C9 (d : StockData) (q : ℚ)
    (h : d.average_sentiment = JSNumber.num q) :
    (q = 0 → averageSentimentLabel false (some d) = "Negative" ∧
      averageSentimentBadgeGreen (some d) = true) ∧
    (0 < q → averageSentimentLabel false (some d) = "Positive" ∧
      averageSentimentBadgeGreen (some d) = true) ∧
    (q < 0 → averageSentimentLabel false (some d) = "Negative" ∧
      averageSentimentBadgeGreen (some d) = false) := by
  refine ⟨?_, ?_, ?_⟩
  · intro hq
    subst hq
    have hg : jsGtZero (JSNumber.num (0 : ℚ)) = false := by decide
    have hp : isPositive (JSNumber.num (0 : ℚ)) = true := by decide
    exact ⟨by simp [averageSentimentLabel, h, hg],
           by simp [averageSentimentBadgeGreen, h, hp]⟩
  · intro hq
    have hg : jsGtZero (JSNumber.num q) = true := by simp [jsGtZero, hq]
    have hp : isPositive (JSNumber.num q) = true := by simp [isPositive, hq.le]
    exact ⟨by simp [averageSentimentLabel, h, hg],
           by simp [averageSentimentBadgeGreen, h, hp]⟩
  · intro hq
    have hg : jsGtZero (JSNumber.num q) = false := by
      simp [jsGtZero]
      exact hq.le
    have hp : isPositive (JSNumber.num q) = false := by
      simp [isPositive]
      exact hq
    exact ⟨by simp [averageSentimentLabel, h, hg],
           by simp [averageSentimentBadgeGreen, h, hp]⟩

/-- Witness for C9: the payload with average sentiment exactly 0 shows the
"Negative" label together with the green styling. -/
theorem claim_C9_witness :
    averageSentimentLabel false (some exStock) = "Negative" ∧
    averageSentimentBadgeGreen (some exStock) = true :=
  (claim_C9 exStock 0 rfl).1 rfl

end StockSentiment
